import Mathlib

/-!
Verification of the student-registration app (`src/app.js`).

The file shallowly embeds the CRUD-plus-validation core of the program:
the four field validators, the duplicate-sid check, the submit handler,
`addStudent` / `updateStudent` / `deleteStudent`, and `loadFromStorage`.

Modelling conventions:
* JS strings are Lean `String`; `String.prototype.trim` is `jsTrim`.
* A record's `id` field is `Option String`: `none` models a JS `null`
  (or absent) id, which arbitrary storage contents can produce, while
  ids generated by `addStudent` are always `some` of a nonempty string.
* JS truthiness of the `editingId` variable (`null` and `""` are falsy)
  is `jsTruthy`.
* `Date.now().toString(36) + Math.random().toString(36).slice(2,7)` is
  modelled by an explicit `freshId : String` parameter; the generated
  string is always nonempty, which appears as a hypothesis where needed.
* `saveToStorage` and `renderStudents` only have the effect of writing
  the serialized roster / redrawing the table; operations report whether
  they were invoked through `saved` / `rendered` flags, so "no
  persistence write occurs" is `saved = false`.
* `JSON.parse` is a platform builtin, not repository code: it enters as
  an explicit `parse : String → Option JsValue` argument, `none`
  modelling a thrown parse error (caught by `loadFromStorage`).
-/

namespace StudentRegistration

/-- JS whitespace (`\s` in the validators' regexes, and what `trim`
strips) is modelled by `Char.isWhitespace`. -/
def isJsSpace (c : Char) : Bool := c.isWhitespace

/-- `String.prototype.trim`: remove leading and trailing whitespace. -/
def jsTrim (s : String) : String :=
  String.mk (((s.data.dropWhile isJsSpace).reverse.dropWhile isJsSpace).reverse)

/-- `validateName` (src/app.js lines 41-46): empty after trim fails;
`/^[a-zA-Z\s]+$/` demands every character be an ASCII letter or
whitespace (the `+` is satisfied whenever the trimmed string is
nonempty, which the first check already guarantees). -/
def validateName (name : String) : String :=
  if jsTrim name = "" then "Name is required"
  else if !((jsTrim name).data.all fun c => c.isAlpha || isJsSpace c) then
    "Name must have letters and spaces only"
  else ""

/-- `validateSID` (src/app.js lines 47-51): empty after trim fails;
`/^\d+$/` demands every character be an ASCII digit. -/
def validateSID (sid : String) : String :=
  if jsTrim sid = "" then "Student ID is required"
  else if !((jsTrim sid).data.all Char.isDigit) then "Student ID must be numeric"
  else ""

/-- A character admitted by `[^\s@]` in the email regex. -/
def isEmailChar (c : Char) : Bool := !c.isWhitespace && c != '@'

/-- Split a character list at every occurrence of `c` (the semantics of
JS `String.prototype.split` with a single-character separator). -/
def splitAtChar (c : Char) : List Char → List (List Char)
  | [] => [[]]
  | x :: xs =>
      match splitAtChar c xs, decide (x = c) with
      | r, true => [] :: r
      | [], false => [[x]]
      | y :: ys, false => (x :: y) :: ys

/-- `/^[^\s@]+@[^\s@]+\.[^\s@]+$/` (src/app.js line 55): the string
splits at a unique `@` into a nonempty local part and a rest, both free
of whitespace and further `@`s, and the rest contains a `.` that is
neither its first nor its last character (so that both `[^\s@]+` groups
around the dot are nonempty; `[^\s@]` itself admits `.`). -/
def emailRegexTest (s : String) : Bool :=
  match splitAtChar '@' s.data with
  | [lpart, rest] =>
      !lpart.isEmpty && lpart.all isEmailChar &&
      rest.all isEmailChar &&
      ((rest.drop 1).dropLast.contains '.')
  | _ => false

/-- `validateEmail` (src/app.js lines 52-58). -/
def validateEmail (email : String) : String :=
  if jsTrim email = "" then "Email is required"
  else if !emailRegexTest (jsTrim email) then "Enter a valid email"
  else ""

/-- The first `validateContact` declaration (src/app.js lines 59-64).
Because the second declaration of the same name (lines 239-243) is also
a hoisted function declaration, this one is shadowed and never in effect
at call time; it is kept for comparison. -/
def validateContactShadowed (contact : String) : String :=
  if jsTrim contact = "" then "Contact is required"
  else if !((jsTrim contact).data.all Char.isDigit) then "Contact must be numeric"
  else if (jsTrim contact).length < 10 then "Contact must be at least 10 digits"
  else ""

/-- `validateContact` (src/app.js lines 239-243): the second function
declaration of this name wins by JS hoisting, so this is the validator
in effect at submit time. It checks only emptiness and trimmed length. -/
def validateContact (contact : String) : String :=
  if jsTrim contact = "" then "Contact number is required"
  else if (jsTrim contact).length ≠ 10 then "Contact number must be exactly 10 digits"
  else ""

/-! ## Data model and roster operations -/

/-- A roster record as stored in the in-memory `students` array
(src/app.js lines 160-166): four string fields plus an `id`, where
`none` models a `null`/absent id that unvalidated storage contents can
introduce. -/
structure Student where
  id : Option String
  name : String
  sid : String
  email : String
  contact : String
deriving DecidableEq, Repr

/-- The four non-id field values collected from the form. -/
structure StudentData where
  name : String
  sid : String
  email : String
  contact : String
deriving DecidableEq, Repr

/-- The mutable state the submit handler touches: the `students` array
and the `editingId` variable (src/app.js lines 37-38). -/
structure AppState where
  students : List Student
  editingId : Option String
deriving DecidableEq, Repr

/-- JS truthiness of `editingId` at `if (editingId)` (src/app.js line
226): `null` and the empty string are falsy. -/
def jsTruthy : Option String → Bool
  | none => false
  | some s => s ≠ ""

/-- `addStudent(data)` (src/app.js lines 160-166): push a record with a
freshly generated id, save, re-render. The generated id
`Date.now().toString(36) + Math.random().toString(36).slice(2,7)` is
passed in as `freshId`; it is always a nonempty string, and nothing
guarantees it differs from ids already present. Returns the new array
and whether `saveToStorage` (and `renderStudents`) ran. -/
def addStudent (students : List Student) (freshId : String) (d : StudentData) :
    List Student × Bool :=
  (students ++ [{ id := some freshId, name := d.name, sid := d.sid,
                  email := d.email, contact := d.contact }], true)

/-- `updateStudent(id, newData)` (src/app.js lines 180-186): find the
first record whose `id` strictly equals the argument; if none, return
without saving; otherwise replace it in place by `{ id, ...newData }`.
Returns the new array and whether `saveToStorage` ran. -/
def updateStudent (students : List Student) (id : Option String) (d : StudentData) :
    List Student × Bool :=
  match students.findIdx? (fun s => s.id == id) with
  | none => (students, false)
  | some idx =>
      (students.set idx { id := id, name := d.name, sid := d.sid,
                          email := d.email, contact := d.contact }, true)

/-- `deleteStudent(id)` (src/app.js lines 188-193): gated on
`confirm(...)`; if declined, return with nothing changed; if confirmed,
keep exactly the records whose `id` differs from the argument, save,
re-render. The id comes from a DOM `data-id` attribute and is therefore
a plain string. Returns the new array, whether `saveToStorage` ran and
whether `renderStudents` ran. -/
def deleteStudent (students : List Student) (id : String) (confirmed : Bool) :
    List Student × Bool × Bool :=
  if !confirmed then (students, false, false)
  else (students.filter (fun s => s.id != some id), true, true)

/-- The error texts set by `showErrors` (src/app.js lines 67-72), one
per field; an absent error renders as the empty string. -/
structure FieldErrors where
  name : String
  sid : String
  email : String
  contact : String
deriving DecidableEq, Repr

/-- What a single submit did: rejected with displayed errors (state
untouched), or went through the update branch, or through the add
branch. -/
inductive SubmitOutcome where
  | rejected (errors : FieldErrors)
  | updatedOk
  | addedOk
deriving DecidableEq, Repr

/-- Result of one run of the submit handler: the state afterwards,
whether `saveToStorage` was called, and the outcome. -/
structure SubmitResult where
  state : AppState
  saved : Bool
  outcome : SubmitOutcome
deriving DecidableEq, Repr

/-- The duplicate-sid check of the submit handler (src/app.js line 219):
`students.some(s => s.sid === sid && s.id !== editingId)`. -/
def dupSidCheck (students : List Student) (sid : String) (editingId : Option String) : Bool :=
  students.any (fun s => s.sid == sid && s.id != editingId)

/-- The `studentForm` submit handler (src/app.js lines 196-235): trim
the four inputs, run the four validators, and if any message is nonempty
show all of them and stop; otherwise stop with the duplicate-sid error
when `dupSidCheck` fires; otherwise dispatch to `updateStudent` (when
`editingId` is truthy) or `addStudent`, and clear the form (which resets
`editingId` to `null`, src/app.js lines 75-80). -/
def submitHandler (st : AppState) (rawName rawSid rawEmail rawContact : String)
    (freshId : String) : SubmitResult :=
  let name := jsTrim rawName
  let sid := jsTrim rawSid
  let email := jsTrim rawEmail
  let contact := jsTrim rawContact
  let eName := validateName name
  let eSid := validateSID sid
  let eEmail := validateEmail email
  let eContact := validateContact contact
  if eName ≠ "" ∨ eSid ≠ "" ∨ eEmail ≠ "" ∨ eContact ≠ "" then
    { state := st, saved := false,
      outcome := .rejected ⟨eName, eSid, eEmail, eContact⟩ }
  else if dupSidCheck st.students sid st.editingId then
    { state := st, saved := false,
      outcome := .rejected ⟨"", "This Student ID already exists", "", ""⟩ }
  else if jsTruthy st.editingId then
    let r := updateStudent st.students st.editingId ⟨name, sid, email, contact⟩
    { state := { students := r.1, editingId := none }, saved := r.2,
      outcome := .updatedOk }
  else
    let r := addStudent st.students freshId ⟨name, sid, email, contact⟩
    { state := { students := r.1, editingId := none }, saved := r.2,
      outcome := .addedOk }

/-! ## Persistence adapter -/

/-- A JSON value, the possible results of `JSON.parse`. -/
inductive JsValue where
  | null : JsValue
  | bool (b : Bool) : JsValue
  | num (n : Int) : JsValue
  | str (s : String) : JsValue
  | arr (elems : List JsValue) : JsValue
  | obj (fields : List (String × JsValue)) : JsValue

/-- `loadFromStorage()` (src/app.js lines 83-94). `slot` is what
`localStorage.getItem(STORAGE_KEY)` returns (`none` = absent). `parse`
models the platform builtin `JSON.parse`, with `none` standing for a
thrown `SyntaxError`, which the surrounding `try`/`catch` absorbs. An
absent slot, a parse failure, or a parsed value that is not an array all
yield `[]`; a parsed array is returned as-is, elementwise unchecked. -/
def loadFromStorage (slot : Option String) (parse : String → Option JsValue) :
    List JsValue :=
  match slot with
  | none => []
  | some raw =>
      match parse raw with
      | none => []
      | some v =>
          match v with
          | .arr elems => elems
          | _ => []

/-! ## Submit-event sequences (for the sid-uniqueness invariant) -/

/-- One pass through the submit handler: the raw form inputs, the id
`addStudent` would generate, and the value of `editingId` at the moment
of submission (set beforehand by `startEdit`, `clearForm`, or a previous
submit). -/
structure SubmitEvent where
  name : String
  sid : String
  email : String
  contact : String
  freshId : String
  editingId : Option String
deriving DecidableEq, Repr

/-- Run one submit event against a roster. -/
def stepStudents (students : List Student) (e : SubmitEvent) : List Student :=
  (submitHandler ⟨students, e.editingId⟩ e.name e.sid e.email e.contact e.freshId).state.students

/-- The outcome of one submit event against a roster. -/
def stepOutcome (students : List Student) (e : SubmitEvent) : SubmitOutcome :=
  (submitHandler ⟨students, e.editingId⟩ e.name e.sid e.email e.contact e.freshId).outcome

/-- Run a sequence of submit events. -/
def runEvents (students : List Student) : List SubmitEvent → List Student
  | [] => students
  | e :: rest => runEvents (stepStudents students e) rest

/-- Every event in the sequence gets past the four validators and the
duplicate-sid check (its outcome is an actual add or update). -/
def eventsPass (students : List Student) : List SubmitEvent → Bool
  | [] => true
  | e :: rest =>
      (match stepOutcome students e with
        | .rejected _ => false
        | _ => true)
      && eventsPass (stepStudents students e) rest

/-- Each event's generated id is a nonempty string not already present
as a record id at the moment that event runs. This is what the
`Date.now`/`Math.random` generator is intended to deliver (src/app.js
line 162). -/
def freshIdsOk (students : List Student) : List SubmitEvent → Bool
  | [] => true
  | e :: rest =>
      (e.freshId != "" && !((students.map Student.id).contains (some e.freshId)))
      && freshIdsOk (stepStudents students e) rest

/-- No two records of the roster carry the same `sid`. -/
def sidsUnique (students : List Student) : Prop :=
  (students.map Student.sid).Nodup

instance (students : List Student) : Decidable (sidsUnique students) :=
  List.nodupDecidable _

/-- Every record's id is a truthy string (nonempty, non-null) and no two
records carry the same id — the data-model shape `addStudent` aims for,
which storage contents are not forced to satisfy. -/
def idsWellFormed (students : List Student) : Prop :=
  (students.map Student.id).Nodup
  ∧ ∀ s ∈ students, jsTruthy s.id = true

instance (students : List Student) : Decidable (idsWellFormed students) :=
  instDecidableAnd

/-! ## Helper lemmas -/

theorem list_set_getElem_self {α : Type} {l : List α} {i : Nat} {a : α}
    (hi : i < l.length) (ha : l[i] = a) : l.set i a = l := by
  apply List.ext_getElem (by simp)
  intro n h1 h2
  rw [List.getElem_set]
  split
  · next h => subst h; exact ha.symm
  · rfl

theorem list_nodup_set {α : Type} {l : List α} {i : Nat} {a : α}
    (hnd : l.Nodup)
    (ha : ∀ j (hj : j < l.length), j ≠ i → l[j] ≠ a) :
    (l.set i a).Nodup := by
  have h' := List.pairwise_iff_getElem.mp hnd
  refine List.pairwise_iff_getElem.mpr ?_
  intro p q hp hq hpq
  rw [List.length_set] at hp hq
  rw [List.getElem_set, List.getElem_set]
  by_cases hip : i = p <;> by_cases hiq : i = q
  · omega
  · subst hip
    rw [if_pos rfl, if_neg hiq]
    exact fun h => ha q hq (fun hq' => hiq hq'.symm) h.symm
  · subst hiq
    rw [if_neg hip, if_pos rfl]
    exact ha p hp (fun hp' => hip hp'.symm)
  · rw [if_neg hip, if_neg hiq]
    exact h' p q hp hq hpq

/-! ## Claim theorems -/

/-- Claim C2: the contact validator in effect at submit time (the second
`validateContact` declaration, which wins by hoisting) returns
"Contact number is required" when the input is empty after trimming,
returns "Contact number must be exactly 10 digits" when the trimmed
value's length is not 10, and returns the empty string otherwise; it
performs no digit-only check, so any string whose trimmed form has 10
characters — digits or not — is accepted. -/
theorem validateContact_effective_spec (c : String) :
    (jsTrim c = "" → validateContact c = "Contact number is required")
    ∧ (jsTrim c ≠ "" → (jsTrim c).length ≠ 10 →
        validateContact c = "Contact number must be exactly 10 digits")
    ∧ ((jsTrim c).length = 10 → validateContact c = "") := by
  refine ⟨fun h => ?_, fun h1 h2 => ?_, fun h => ?_⟩
  · unfold validateContact
    rw [if_pos h]
  · unfold validateContact
    rw [if_neg h1, if_pos h2]
  · have h1 : jsTrim c ≠ "" := by
      intro he
      rw [he] at h
      exact absurd h (by decide)
    unfold validateContact
    rw [if_neg h1, if_neg (by rw [h]; exact fun hc => hc rfl)]

/-- Witness for C2 at concrete inputs: a whitespace-only contact is
"required", a 5-digit contact fails the length check, and a 10-character
string containing non-digits is accepted (no digit-only check). -/
theorem validateContact_effective_spec_witness :
    validateContact " " = "Contact number is required"
    ∧ validateContact "12345" = "Contact number must be exactly 10 digits"
    ∧ validateContact "ab!defghij" = "" :=
  ⟨(validateContact_effective_spec " ").1 (by decide),
   (validateContact_effective_spec "12345").2.1 (by decide) (by decide),
   (validateContact_effective_spec "ab!defghij").2.2 (by decide)⟩

/-- Claim C3: starting from an empty roster, adding sid "1001" and then
submitting again in Add mode with sid "1001" and otherwise valid fields
is rejected with the sid error "This Student ID already exists" while
the roster keeps exactly one record and the state is untouched; and in
general the duplicate check fires exactly when some record whose id
differs from the current edit id has an equal sid. -/
theorem duplicate_sid_rejection :
    ((submitHandler ⟨[], none⟩ "Ann Lee" "1001" "a@b.com" "1234567890" "k1").outcome
        = .addedOk
      ∧ (submitHandler ⟨[], none⟩ "Ann Lee" "1001" "a@b.com" "1234567890" "k1").state.students.length = 1
      ∧ (submitHandler (submitHandler ⟨[], none⟩ "Ann Lee" "1001" "a@b.com" "1234567890" "k1").state
          "Bea Cole" "1001" "b@c.com" "0987654321" "k2")
        = { state := (submitHandler ⟨[], none⟩ "Ann Lee" "1001" "a@b.com" "1234567890" "k1").state,
            saved := false,
            outcome := .rejected ⟨"", "This Student ID already exists", "", ""⟩ })
    ∧ ∀ (students : List Student) (sid : String) (eid : Option String),
        dupSidCheck students sid eid = true ↔ ∃ s ∈ students, s.sid = sid ∧ s.id ≠ eid := by
  constructor
  · refine ⟨by decide, by decide, by decide⟩
  · intro students sid eid
    unfold dupSidCheck
    rw [List.any_eq_true]
    constructor
    · rintro ⟨s, hs, hp⟩
      rw [Bool.and_eq_true, beq_iff_eq, bne_iff_ne] at hp
      exact ⟨s, hs, hp⟩
    · rintro ⟨s, hs, h1, h2⟩
      exact ⟨s, hs, by rw [Bool.and_eq_true, beq_iff_eq, bne_iff_ne]; exact ⟨h1, h2⟩⟩

/-- Claim C4: whenever at least one of the four validators rejects its
(trimmed) input, the submit handler displays all four validator messages
together, performs no roster mutation and no persistence write, and
leaves the controller state (roster and edit marker) exactly as it was;
submitting the same invalid form a second time — whatever id the
generator would have produced — yields the identical result, so the
error set and the roster length are unchanged. -/
theorem invalid_submit_rejected_no_mutation (st : AppState)
    (nm sd em ct fid fid2 : String)
    (h : validateName (jsTrim nm) ≠ "" ∨ validateSID (jsTrim sd) ≠ ""
      ∨ validateEmail (jsTrim em) ≠ "" ∨ validateContact (jsTrim ct) ≠ "") :
    submitHandler st nm sd em ct fid
      = { state := st, saved := false,
          outcome := .rejected ⟨validateName (jsTrim nm), validateSID (jsTrim sd),
                                validateEmail (jsTrim em), validateContact (jsTrim ct)⟩ }
    ∧ submitHandler st nm sd em ct fid2 = submitHandler st nm sd em ct fid := by
  have key : ∀ f : String, submitHandler st nm sd em ct f
      = { state := st, saved := false,
          outcome := .rejected ⟨validateName (jsTrim nm), validateSID (jsTrim sd),
                                validateEmail (jsTrim em), validateContact (jsTrim ct)⟩ } := by
    intro f
    unfold submitHandler
    dsimp only
    rw [if_pos h]
  exact ⟨key fid, by rw [key fid2, key fid]⟩

/-- Witness for C4: an empty name field is rejected with all four
messages shown (three of them empty), the state is untouched, and a
second identical submission gives the identical result. -/
theorem invalid_submit_rejected_no_mutation_witness :
    submitHandler ⟨[], none⟩ " " "1001" "a@b.com" "1234567890" "f1"
      = { state := ⟨[], none⟩, saved := false,
          outcome := .rejected ⟨validateName (jsTrim " "), validateSID (jsTrim "1001"),
                                validateEmail (jsTrim "a@b.com"),
                                validateContact (jsTrim "1234567890")⟩ }
    ∧ submitHandler ⟨[], none⟩ " " "1001" "a@b.com" "1234567890" "f2"
      = submitHandler ⟨[], none⟩ " " "1001" "a@b.com" "1234567890" "f1" :=
  invalid_submit_rejected_no_mutation ⟨[], none⟩ " " "1001" "a@b.com" "1234567890" "f1" "f2"
    (Or.inl (by decide))

/-- Claim C5: `updateStudent` on an id with no matching record is a
silent no-op — the array comes back unchanged, `saveToStorage` is never
reached (so the persisted copy is untouched), and the function returns
without signalling anything. -/
theorem updateStudent_missing_id_noop (students : List Student) (id : Option String)
    (d : StudentData) (h : ∀ s ∈ students, s.id ≠ id) :
    updateStudent students id d = (students, false) := by
  unfold updateStudent
  have hn : students.findIdx? (fun s => s.id == id) = none :=
    List.findIdx?_eq_none_iff.mpr (fun s hs => beq_eq_false_iff_ne.mpr (h s hs))
  rw [hn]

/-- Witness for C5: updating id "zz" in a one-record roster that does
not contain it changes nothing and writes nothing. -/
theorem updateStudent_missing_id_noop_witness :
    updateStudent [⟨some "a1", "Ann Lee", "1001", "a@b.com", "1234567890"⟩] (some "zz")
      ⟨"Bea Cole", "1002", "b@c.com", "0123456789"⟩
      = ([⟨some "a1", "Ann Lee", "1001", "a@b.com", "1234567890"⟩], false) :=
  updateStudent_missing_id_noop _ _ _ (by decide)

/-- Claim C6: a delete whose confirmation is declined changes no state —
the array is returned as it was and neither `saveToStorage` nor
`renderStudents` runs; a confirmed delete leaves no record with the
requested id (removing the matching record, if any), persists the
collection, and re-renders. -/
theorem deleteStudent_confirmation_gate (students : List Student) (id : String) :
    deleteStudent students id false = (students, false, false)
    ∧ (deleteStudent students id true).1.all (fun s => s.id != some id) = true
    ∧ (deleteStudent students id true).2.1 = true
    ∧ (deleteStudent students id true).2.2 = true := by
  refine ⟨rfl, ?_, rfl, rfl⟩
  rw [List.all_eq_true]
  intro s hs
  have hm : s ∈ students.filter (fun s => s.id != some id) := hs
  exact (List.mem_filter.mp hm).2

/-- Claim C7: `loadFromStorage` returns the empty array whenever the
storage slot is absent, `JSON.parse` throws, or the parsed value is not
an array; a parse failure is caught and never propagated. -/
theorem loadFromStorage_error_absorption (parse : String → Option JsValue) :
    loadFromStorage none parse = []
    ∧ (∀ raw, parse raw = none → loadFromStorage (some raw) parse = [])
    ∧ (∀ raw v, parse raw = some v → (∀ xs, v ≠ JsValue.arr xs) →
        loadFromStorage (some raw) parse = [])
    ∧ (∀ raw xs, parse raw = some (JsValue.arr xs) →
        loadFromStorage (some raw) parse = xs) := by
  refine ⟨rfl, fun raw h => ?_, fun raw v h hv => ?_, fun raw xs h => ?_⟩
  · show (match parse raw with
      | none => ([] : List JsValue)
      | some v => match v with
        | .arr elems => elems
        | _ => []) = []
    rw [h]
  · show (match parse raw with
      | none => ([] : List JsValue)
      | some v => match v with
        | .arr elems => elems
        | _ => []) = []
    rw [h]
    cases v with
    | arr xs => exact absurd rfl (hv xs)
    | null => rfl
    | bool b => rfl
    | num n => rfl
    | str s => rfl
    | obj fields => rfl
  · show (match parse raw with
      | none => ([] : List JsValue)
      | some v => match v with
        | .arr elems => elems
        | _ => []) = xs
    rw [h]

/-- Witness for C7: an absent slot, a throwing parse, a non-array parse
result, and an array parse result, each at a concrete parse function. -/
theorem loadFromStorage_error_absorption_witness :
    loadFromStorage none (fun _ => some (JsValue.arr [JsValue.null])) = []
    ∧ loadFromStorage (some "bad") (fun _ => none) = []
    ∧ loadFromStorage (some "n") (fun _ => some (JsValue.num 3)) = []
    ∧ loadFromStorage (some "ok") (fun _ => some (JsValue.arr [JsValue.null]))
        = [JsValue.null] :=
  ⟨(loadFromStorage_error_absorption _).1,
   (loadFromStorage_error_absorption _).2.1 "bad" rfl,
   (loadFromStorage_error_absorption _).2.2.1 "n" (JsValue.num 3) rfl
     (fun _ h => JsValue.noConfusion h),
   (loadFromStorage_error_absorption _).2.2.2 "ok" [JsValue.null] rfl⟩

/-- Claim C8: `updateStudent` on an id whose first match sits at
position `idx` saves, keeps the array length, puts at position `idx`
exactly the record built from the argument id and the new non-id fields
— and that id equals the old record's id, so the id is preserved — and
leaves every other position untouched. -/
theorem updateStudent_existing_id_frame (students : List Student) (id : Option String)
    (d : StudentData) (idx : Nat)
    (h : students.findIdx? (fun s => s.id == id) = some idx) :
    (updateStudent students id d).2 = true
    ∧ (updateStudent students id d).1.length = students.length
    ∧ (updateStudent students id d).1[idx]?
        = some { id := id, name := d.name, sid := d.sid, email := d.email,
                 contact := d.contact }
    ∧ students[idx]?.map Student.id = some id
    ∧ ∀ j, j ≠ idx → (updateStudent students id d).1[j]? = students[j]? := by
  obtain ⟨hlen, hidx⟩ := List.findIdx?_eq_some_iff_findIdx_eq.mp h
  have hp : (students[idx].id == id) = true := by
    subst hidx
    exact @List.findIdx_getElem _ _ _ hlen
  unfold updateStudent
  rw [h]
  refine ⟨rfl, List.length_set students idx _, ?_, ?_, fun j hj => ?_⟩
  · rw [List.getElem?_set, if_pos rfl, if_pos hlen]
  · rw [List.getElem?_eq_getElem hlen]
    exact congrArg some (beq_iff_eq.mp hp)
  · rw [List.getElem?_set, if_neg (fun e => hj e.symm)]

/-- Witness for C8: updating the second of two records replaces its
fields in place, keeps its id and position, and leaves the first record
alone. -/
theorem updateStudent_existing_id_frame_witness :
    (updateStudent [⟨some "a1", "Ann Lee", "1001", "a@b.com", "1234567890"⟩,
                    ⟨some "b2", "Bea Cole", "1002", "b@c.com", "0123456789"⟩]
        (some "b2") ⟨"Bea M Cole", "1003", "bm@c.com", "1112223334"⟩).2 = true
    ∧ (updateStudent [⟨some "a1", "Ann Lee", "1001", "a@b.com", "1234567890"⟩,
                      ⟨some "b2", "Bea Cole", "1002", "b@c.com", "0123456789"⟩]
        (some "b2") ⟨"Bea M Cole", "1003", "bm@c.com", "1112223334"⟩).1.length = 2
    ∧ (updateStudent [⟨some "a1", "Ann Lee", "1001", "a@b.com", "1234567890"⟩,
                      ⟨some "b2", "Bea Cole", "1002", "b@c.com", "0123456789"⟩]
        (some "b2") ⟨"Bea M Cole", "1003", "bm@c.com", "1112223334"⟩).1[1]?
        = some ⟨some "b2", "Bea M Cole", "1003", "bm@c.com", "1112223334"⟩
    ∧ (updateStudent [⟨some "a1", "Ann Lee", "1001", "a@b.com", "1234567890"⟩,
                      ⟨some "b2", "Bea Cole", "1002", "b@c.com", "0123456789"⟩]
        (some "b2") ⟨"Bea M Cole", "1003", "bm@c.com", "1112223334"⟩).1[0]?
        = some ⟨some "a1", "Ann Lee", "1001", "a@b.com", "1234567890"⟩ := by
  have h := updateStudent_existing_id_frame
    [⟨some "a1", "Ann Lee", "1001", "a@b.com", "1234567890"⟩,
     ⟨some "b2", "Bea Cole", "1002", "b@c.com", "0123456789"⟩]
    (some "b2") ⟨"Bea M Cole", "1003", "bm@c.com", "1112223334"⟩ 1 (by decide)
  refine ⟨h.1, h.2.1, h.2.2.1, ?_⟩
  rw [h.2.2.2.2 0 (by decide)]
  decide

/-- Claim C9: `loadFromStorage` does no element-shape validation — any
value that parses to a JSON array is returned exactly as parsed, so the
initial roster can contain non-objects, objects missing fields, and
records with duplicate sids. -/
theorem loadFromStorage_no_shape_validation :
    (∀ (parse : String → Option JsValue) (raw : String) (xs : List JsValue),
        parse raw = some (JsValue.arr xs) → loadFromStorage (some raw) parse = xs)
    ∧ loadFromStorage (some "slot")
        (fun _ => some (JsValue.arr [JsValue.null, JsValue.num 3,
          JsValue.obj [("sid", JsValue.str "1001")],
          JsValue.obj [("sid", JsValue.str "1001")]]))
        = [JsValue.null, JsValue.num 3,
           JsValue.obj [("sid", JsValue.str "1001")],
           JsValue.obj [("sid", JsValue.str "1001")]] := by
  constructor
  · intro parse raw xs h
    show (match parse raw with
      | none => ([] : List JsValue)
      | some v => match v with
        | .arr elems => elems
        | _ => []) = xs
    rw [h]
  · rfl

/-- Witness for C9: a parse result whose elements are a `null` and a
number is handed to the roster unchanged. -/
theorem loadFromStorage_no_shape_validation_witness :
    loadFromStorage (some "s") (fun _ => some (JsValue.arr [JsValue.null, JsValue.num 3]))
      = [JsValue.null, JsValue.num 3] :=
  loadFromStorage_no_shape_validation.1 _ "s" _ rfl

/-- Claim C10: a confirmed delete removes every record whose id equals
the given id — not only the first match — keeps the surviving records in
their relative order (the result is a sublist), keeps every non-matching
record, and on an id with no matching record returns the contents
unchanged while still saving and re-rendering. -/
theorem deleteStudent_removes_all_matches (students : List Student) (id : String) :
    (∀ s ∈ (deleteStudent students id true).1, s.id ≠ some id)
    ∧ (deleteStudent students id true).1.Sublist students
    ∧ (∀ s ∈ students, s.id ≠ some id → s ∈ (deleteStudent students id true).1)
    ∧ ((∀ s ∈ students, s.id ≠ some id) →
        deleteStudent students id true = (students, true, true)) := by
  have hD : deleteStudent students id true
      = (students.filter (fun s => s.id != some id), true, true) := rfl
  rw [hD]
  refine ⟨?_, List.filter_sublist _, ?_, ?_⟩
  · intro s hs
    exact bne_iff_ne.mp (List.mem_filter.mp hs).2
  · intro s hs hne
    exact List.mem_filter.mpr ⟨hs, bne_iff_ne.mpr hne⟩
  · intro h
    rw [List.filter_eq_self.mpr (fun a ha => bne_iff_ne.mpr (h a ha))]

/-- Witness for C10: deleting id "a" from a roster holding two records
with id "a" around one with id "b" keeps the "b" record, and deleting an
absent id "z" returns the roster unchanged with the save and re-render
still performed. -/
theorem deleteStudent_removes_all_matches_witness :
    (⟨some "b", "Bea Cole", "1002", "b@c.com", "0123456789"⟩ : Student)
      ∈ (deleteStudent [⟨some "a", "Ann Lee", "1001", "a@b.com", "1234567890"⟩,
                        ⟨some "b", "Bea Cole", "1002", "b@c.com", "0123456789"⟩,
                        ⟨some "a", "Cal Dee", "1003", "c@d.com", "1112223334"⟩] "a" true).1
    ∧ deleteStudent [⟨some "a", "Ann Lee", "1001", "a@b.com", "1234567890"⟩] "z" true
        = ([⟨some "a", "Ann Lee", "1001", "a@b.com", "1234567890"⟩], true, true) :=
  ⟨(deleteStudent_removes_all_matches _ "a").2.2.1 _ (by decide) (by decide),
   (deleteStudent_removes_all_matches _ "z").2.2.2 (by decide)⟩

/-! ## Preservation of the sid-uniqueness invariant -/

theorem nodup_map_getElem_ne {α β : Type} {f : α → β} {l : List α}
    (h : (l.map f).Nodup) {i j : Nat} (hi : i < l.length) (hj : j < l.length)
    (hij : i ≠ j) : f l[i] ≠ f l[j] := by
  have hp := List.pairwise_iff_getElem.mp h
  rcases Nat.lt_or_ge i j with hlt | hge
  · have hne := hp i j (by rw [List.length_map]; exact hi) (by rw [List.length_map]; exact hj) hlt
    rw [List.getElem_map, List.getElem_map] at hne
    exact hne
  · have hlt : j < i := Nat.lt_of_le_of_ne hge fun e => hij e.symm
    have hne := hp j i (by rw [List.length_map]; exact hj) (by rw [List.length_map]; exact hi) hlt
    rw [List.getElem_map, List.getElem_map] at hne
    exact fun e => hne e.symm

theorem updateStudent_preserves_invariants (students : List Student) (id : Option String)
    (d : StudentData) (h1 : sidsUnique students) (h2 : idsWellFormed students)
    (hdup : dupSidCheck students d.sid id = false) :
    sidsUnique (updateStudent students id d).1
    ∧ idsWellFormed (updateStudent students id d).1 := by
  unfold updateStudent
  cases hfi : students.findIdx? (fun s => s.id == id) with
  | none => exact ⟨h1, h2⟩
  | some idx =>
    obtain ⟨hlen, hfind⟩ := List.findIdx?_eq_some_iff_findIdx_eq.mp hfi
    have hpid : students[idx].id = id := by
      apply beq_iff_eq.mp
      subst hfind
      exact @List.findIdx_getElem _ _ _ hlen
    have hdup' : ∀ s ∈ students, s.sid = d.sid → s.id = id := by
      intro s hs hsid
      by_contra hne
      have ht : dupSidCheck students d.sid id = true := by
        unfold dupSidCheck
        rw [List.any_eq_true]
        exact ⟨s, hs, by rw [Bool.and_eq_true, beq_iff_eq, bne_iff_ne]; exact ⟨hsid, hne⟩⟩
      exact Bool.noConfusion (ht.symm.trans hdup)
    obtain ⟨hids, htruthy⟩ := h2
    constructor
    · show ((students.set idx
        { id := id, name := d.name, sid := d.sid, email := d.email,
          contact := d.contact }).map Student.sid).Nodup
      rw [List.map_set]
      apply list_nodup_set h1
      intro j hj hji
      rw [List.length_map] at hj
      rw [List.getElem_map]
      intro heq
      have hjid : students[j].id = id := hdup' _ (List.getElem_mem hj) heq
      exact absurd (show students[j].id = students[idx].id by rw [hjid, hpid])
        (nodup_map_getElem_ne hids hj hlen hji)
    · constructor
      · show ((students.set idx
          { id := id, name := d.name, sid := d.sid, email := d.email,
            contact := d.contact }).map Student.id).Nodup
        rw [List.map_set]
        rw [list_set_getElem_self (by rw [List.length_map]; exact hlen)
          (by rw [List.getElem_map]; exact hpid)]
        exact hids
      · intro s hs
        rcases List.mem_or_eq_of_mem_set hs with hmem | heq
        · exact htruthy s hmem
        · rw [heq]
          show jsTruthy id = true
          rw [← hpid]
          exact htruthy _ (List.getElem_mem hlen)

theorem addStudent_preserves_invariants (students : List Student) (freshId : String)
    (d : StudentData) (h1 : sidsUnique students) (h2 : idsWellFormed students)
    (hfe : freshId ≠ "") (hff : (some freshId) ∉ students.map Student.id)
    (eid : Option String) (heid : jsTruthy eid = false)
    (hdup : dupSidCheck students d.sid eid = false) :
    sidsUnique (addStudent students freshId d).1
    ∧ idsWellFormed (addStudent students freshId d).1 := by
  have hne : ∀ s ∈ students, s.sid ≠ d.sid := by
    intro s hs heq
    have hst : jsTruthy s.id = true := h2.2 s hs
    have hsne : s.id ≠ eid := by
      intro hh
      rw [hh, heid] at hst
      exact Bool.noConfusion hst
    have ht : dupSidCheck students d.sid eid = true := by
      unfold dupSidCheck
      rw [List.any_eq_true]
      exact ⟨s, hs, by rw [Bool.and_eq_true, beq_iff_eq, bne_iff_ne]; exact ⟨heq, hsne⟩⟩
    exact Bool.noConfusion (ht.symm.trans hdup)
  refine ⟨?_, ?_, ?_⟩
  · show ((students ++
        [({ id := some freshId, name := d.name, sid := d.sid, email := d.email,
            contact := d.contact } : Student)]).map Student.sid).Nodup
    rw [List.map_append, List.map_singleton, List.nodup_append]
    refine ⟨h1, List.nodup_singleton _, ?_⟩
    rw [List.disjoint_singleton]
    intro hmem
    rw [List.mem_map] at hmem
    obtain ⟨s, hs, hsid⟩ := hmem
    exact hne s hs hsid
  · show ((students ++
        [({ id := some freshId, name := d.name, sid := d.sid, email := d.email,
            contact := d.contact } : Student)]).map Student.id).Nodup
    rw [List.map_append, List.map_singleton, List.nodup_append]
    exact ⟨h2.1, List.nodup_singleton _, by rw [List.disjoint_singleton]; exact hff⟩
  · intro s hs
    rcases List.mem_append.mp hs with hmem | hmem
    · exact h2.2 s hmem
    · rw [List.mem_singleton.mp hmem]
      show jsTruthy (some freshId) = true
      exact decide_eq_true hfe

theorem submit_step_preserves_invariants (students : List Student) (e : SubmitEvent)
    (h1 : sidsUnique students) (h2 : idsWellFormed students)
    (hfe : e.freshId ≠ "")
    (hff : (some e.freshId) ∉ students.map Student.id) :
    sidsUnique (stepStudents students e) ∧ idsWellFormed (stepStudents students e) := by
  unfold stepStudents submitHandler
  dsimp only
  by_cases hv : validateName (jsTrim e.name) ≠ "" ∨ validateSID (jsTrim e.sid) ≠ ""
      ∨ validateEmail (jsTrim e.email) ≠ "" ∨ validateContact (jsTrim e.contact) ≠ ""
  · rw [if_pos hv]
    exact ⟨h1, h2⟩
  · rw [if_neg hv]
    by_cases hd : dupSidCheck students (jsTrim e.sid) e.editingId = true
    · rw [if_pos hd]
      exact ⟨h1, h2⟩
    · rw [if_neg hd]
      have hd' : dupSidCheck students (jsTrim e.sid) e.editingId = false :=
        (Bool.not_eq_true _) ▸ hd
      by_cases ht : jsTruthy e.editingId = true
      · rw [if_pos ht]
        exact updateStudent_preserves_invariants students e.editingId
          ⟨jsTrim e.name, jsTrim e.sid, jsTrim e.email, jsTrim e.contact⟩ h1 h2 hd'
      · rw [if_neg ht]
        exact addStudent_preserves_invariants students e.freshId
          ⟨jsTrim e.name, jsTrim e.sid, jsTrim e.email, jsTrim e.contact⟩ h1 h2 hfe hff
          e.editingId ((Bool.not_eq_true _) ▸ ht) hd'

/-- Claim C1 as stated is false: the counterexample theorem below
exhibits two concrete runs that meet all of the claim's hypotheses yet
end with two records sharing a sid. The invariant does hold once the
starting roster's ids are pairwise distinct and truthy and each
generated id is fresh — which is what this theorem proves, for every
sequence of submits (with arbitrary edit markers) that passes the four
validators and the duplicate-sid check. -/
theorem sid_uniqueness_invariant (students : List Student) (evs : List SubmitEvent)
    (h1 : sidsUnique students) (h2 : idsWellFormed students)
    (hf : freshIdsOk students evs = true)
    (hp : eventsPass students evs = true) :
    sidsUnique (runEvents students evs) := by
  induction evs generalizing students with
  | nil => exact h1
  | cons e rest ih =>
    rw [freshIdsOk] at hf
    rw [Bool.and_eq_true, Bool.and_eq_true] at hf
    obtain ⟨⟨hfe, hff⟩, hfr⟩ := hf
    rw [eventsPass, Bool.and_eq_true] at hp
    obtain ⟨-, hpr⟩ := hp
    have hff' : (some e.freshId) ∉ students.map Student.id := by
      intro hmem
      rw [Bool.not_eq_true'] at hff
      exact Bool.noConfusion ((List.elem_iff.mpr hmem).symm.trans hff)
    obtain ⟨hs1, hs2⟩ := submit_step_preserves_invariants students e h1 h2
      (bne_iff_ne.mp hfe) hff'
    rw [runEvents]
    exact ih (stepStudents students e) hs1 hs2 hfr hpr

/-- Witness for C1 (amended): a well-formed one-record roster, one add
and one edit-mode update, both passing; the final roster has pairwise
distinct sids. -/
theorem sid_uniqueness_invariant_witness :
    sidsUnique (runEvents [⟨some "a1", "Ann Lee", "1001", "a@b.com", "1234567890"⟩]
      [⟨"Bea Cole", "1002", "b@c.com", "0123456789", "b2", none⟩,
       ⟨"Ann M Lee", "1003", "am@b.com", "1234509876", "c3", some "a1"⟩]) :=
  sid_uniqueness_invariant _ _ (by decide) (by decide) (by decide) (by decide)

/-- Counterexample to C1 as stated. Run A: a roster whose single record
has a null id (as unvalidated storage can produce) and no duplicate
sids; one Add-mode submit with the same sid passes every validator and
the duplicate check — the check skips the null-id record because
`s.id !== editingId` compares it against the null edit marker — and the
roster ends with two records carrying sid "1001". Run B: from the empty
roster, two adds that happen to draw the same generated id followed by
one passing edit-mode update leave two records with sid "1002". -/
theorem sid_uniqueness_counterexample :
    (sidsUnique [⟨none, "Ann Lee", "1001", "a@b.com", "1234567890"⟩]
      ∧ freshIdsOk [⟨none, "Ann Lee", "1001", "a@b.com", "1234567890"⟩]
          [⟨"Bea Cole", "1001", "b@c.com", "0123456789", "f1", none⟩] = true
      ∧ eventsPass [⟨none, "Ann Lee", "1001", "a@b.com", "1234567890"⟩]
          [⟨"Bea Cole", "1001", "b@c.com", "0123456789", "f1", none⟩] = true
      ∧ ¬ sidsUnique (runEvents [⟨none, "Ann Lee", "1001", "a@b.com", "1234567890"⟩]
          [⟨"Bea Cole", "1001", "b@c.com", "0123456789", "f1", none⟩]))
    ∧ (sidsUnique ([] : List Student)
      ∧ idsWellFormed ([] : List Student)
      ∧ eventsPass ([] : List Student)
          [⟨"Ann Lee", "1001", "a@b.com", "1234567890", "f", none⟩,
           ⟨"Bea Cole", "1002", "b@c.com", "0123456789", "f", none⟩,
           ⟨"Cal Dee", "1002", "c@d.com", "1112223334", "g", some "f"⟩] = true
      ∧ ¬ sidsUnique (runEvents ([] : List Student)
          [⟨"Ann Lee", "1001", "a@b.com", "1234567890", "f", none⟩,
           ⟨"Bea Cole", "1002", "b@c.com", "0123456789", "f", none⟩,
           ⟨"Cal Dee", "1002", "c@d.com", "1112223334", "g", some "f"⟩])) := by
  decide

end StudentRegistration
